import Mathlib

/-!
Shallow embedding of the dental-clinic appointment backend
(`src/backend/server.js`): the Mongo `Cita` collection with its unique
index on (fecha, horario), the `POST /api/appointments` handler
(express-validator chains, findOne availability check, save with
duplicate-key handling, best-effort Google Calendar and Twilio SMS
integrations), `GET /api/appointments/occupied`, and
`PATCH /api/appointments/:id/cancel`.

Time is modelled as minutes since an epoch (`Nat`); a calendar date is a
multiple of `minutesPerDay` (JavaScript parses a date-only ISO string to
midnight). External collaborators (Mongo save success, Google Calendar,
Twilio) are modelled as oracle parameters (`Colaboradores`), since the
handler only observes their success or failure.
-/

namespace Citas

/-- Minutes in a day; date-only values are multiples of this. -/
def minutesPerDay : Nat := 1440

/-- `hoy.setHours(0,0,0,0)`: midnight of the day containing instant `t`. -/
def startOfDay (t : Nat) : Nat := t - t % minutesPerDay

/-- Status enumeration of the `estado` field of the `Cita` schema. -/
inductive Estado where
  | confirmada
  | cancelada
  | completada
deriving DecidableEq, Repr

/-- One stored document of the `Cita` collection (`citaSchema`).
`fecha` is a timestamp (minutes); `horario` is the time-slot string. -/
structure Cita where
  id : Nat
  nombreCompleto : String
  email : String
  telefono : String
  tipoServicio : String
  fecha : Nat
  horario : String
  estado : Estado
  googleCalendarEventId : Option String
deriving DecidableEq, Repr

/-- The Mongo collection plus the generator of fresh `_id`s. -/
structure Store where
  citas : List Cita
  nextId : Nat
deriving DecidableEq, Repr

def emptyStore : Store := ⟨[], 0⟩

/-- Documents of the store at a given (fecha, horario) key. -/
def docsAt (s : Store) (f : Nat) (h : String) : List Cita :=
  s.citas.filter (fun c => decide (c.fecha = f ∧ c.horario = h))

/-- The application-level availability check of the POST handler:
`Cita.findOne({ fecha, horario, estado: 'confirmada' })` is non-null. -/
def citaExistente (s : Store) (f : Nat) (h : String) : Bool :=
  s.citas.any (fun c => decide (c.fecha = f ∧ c.horario = h ∧ c.estado = Estado.confirmada))

/-- The storage-level unique index `citaSchema.index({fecha:1, horario:1}, {unique:true})`:
an insert at (f, h) raises E11000 exactly when some document (of any
`estado`) already holds that key. -/
def hayCitaEnSlot (s : Store) (f : Nat) (h : String) : Bool :=
  s.citas.any (fun c => decide (c.fecha = f ∧ c.horario = h))

/-- `Cita.findById`. -/
def findById (s : Store) (id : Nat) : Option Cita :=
  s.citas.find? (fun c => decide (c.id = id))

/-- JavaScript `String.prototype.trim` on the character list. -/
def trimChars (cs : List Char) : List Char :=
  ((cs.dropWhile Char.isWhitespace).reverse.dropWhile Char.isWhitespace).reverse

/-- JavaScript `String.prototype.trim`. -/
def jsTrim (s : String) : String := String.mk (trimChars s.data)

/-- JavaScript `String.prototype.toLowerCase` (schema `lowercase: true`,
validator `normalizeEmail`). -/
def toLowerStr (s : String) : String := String.mk (s.data.map Char.toLower)

/-- The eight allowed `tipoServicio` values. -/
def servicios : List String :=
  ["limpieza-dental", "ortodoncia", "extracciones", "implantes",
   "carillas", "diseño-sonrisa", "radiografia", "protesis-dentales"]

/-- The eight allowed `horario` values. -/
def horarios : List String :=
  ["08:00", "09:00", "10:00", "11:00", "13:00", "14:00", "15:00", "16:00"]

/-- An incoming `POST /api/appointments` body. `fecha` is the ISO8601
parse of the date field: `none` when the string does not parse. -/
structure Request where
  nombreCompleto : String
  email : String
  telefono : String
  tipoServicio : String
  fecha : Option Nat
  horario : String
deriving DecidableEq, Repr

/-- `body('nombreCompleto').trim().isLength({min:2, max:100})`. -/
def nombreOk (s : String) : Bool :=
  2 ≤ (trimChars s.data).length && (trimChars s.data).length ≤ 100

/-- Simplified model of `body('email').isEmail()`: exactly one at-sign,
non-empty local part, and a domain that contains a dot and neither starts
nor ends with one. -/
def isEmail (s : String) : Bool :=
  let cs := s.data
  let lp := cs.takeWhile (fun c => c != '@')
  match cs.dropWhile (fun c => c != '@') with
  | '@' :: dom =>
      !lp.isEmpty && !dom.isEmpty && !dom.contains '@' && dom.contains '.' &&
        dom.head? != some '.' && dom.getLast? != some '.'
  | _ => false

/-- `body('telefono').matches(/^\+503[0-9]\x7b8\x7d$/)`. -/
def telefonoOk (s : String) : Bool :=
  match s.data with
  | '+' :: '5' :: '0' :: '3' :: rest => rest.length = 8 && rest.all Char.isDigit
  | _ => false

/-- `body('tipoServicio').isIn([...])`. -/
def servicioOk (s : String) : Bool := servicios.contains s

/-- `body('fecha').isISO8601().toDate().custom(...)`: the date must parse
and must not be strictly before `hoy` = midnight of the server's current
day. -/
def fechaOk (now : Nat) : Option Nat → Bool
  | none => false
  | some f => decide (startOfDay now ≤ f)

/-- `body('horario').isIn([...])`. -/
def horarioOk (s : String) : Bool := horarios.contains s

/-- `validationResult(req)`: the list of fields whose validator chain
failed. Every `body(...)` chain runs independently, so every failing
field appears, not just the first. -/
def validar (now : Nat) (r : Request) : List String :=
  (if nombreOk r.nombreCompleto then [] else ["nombreCompleto"]) ++
  (if isEmail r.email then [] else ["email"]) ++
  (if telefonoOk r.telefono then [] else ["telefono"]) ++
  (if servicioOk r.tipoServicio then [] else ["tipoServicio"]) ++
  (if fechaOk now r.fecha then [] else ["fecha"]) ++
  (if horarioOk r.horario then [] else ["horario"])

/-- Outcomes of the external collaborators, fixed ahead of the run: does
the first `nuevaCita.save()` succeed; does `calendar.events.insert`
succeed and with which event id; does the second `save()` persisting the
event id succeed; does `twilioClient.messages.create` succeed. -/
structure Colaboradores where
  saveOk : Bool
  calendarEvent : Option String
  attachSaveOk : Bool
  smsOk : Bool
deriving DecidableEq, Repr

/-- Which side effects the handler attempted during one request. -/
structure Effects where
  calendarAttempted : Bool
  smsAttempted : Bool
deriving DecidableEq, Repr

def noEffects : Effects := ⟨false, false⟩

/-- HTTP outcome of `POST /api/appointments`: 400 with the failing
fields, 409, 201 with the new id and the two integration flags, or 500. -/
inductive PostResult where
  | validationFailed (errores : List String)
  | slotTaken
  | created (id : Nat) (googleCalendar : Bool) (sms : Bool)
  | serverError
deriving DecidableEq, Repr

/-- `nuevaCita.googleCalendarEventId = eid; await nuevaCita.save()`. -/
def setEventId (s : Store) (id : Nat) (eid : String) : Store :=
  ⟨s.citas.map (fun c =>
      if c.id = id then { c with googleCalendarEventId := some eid } else c),
    s.nextId⟩

/-- The document built by `new Cita({...})` from a validated request:
name trimmed and email lowercased (validator and schema options),
`estado` defaulted to `confirmada`, no calendar reference yet. -/
def nuevaCitaDe (s : Store) (r : Request) (f : Nat) : Cita :=
  { id := s.nextId
    nombreCompleto := jsTrim r.nombreCompleto
    email := toLowerStr r.email
    telefono := r.telefono
    tipoServicio := r.tipoServicio
    fecha := f
    horario := r.horario
    estado := Estado.confirmada
    googleCalendarEventId := none }

/-- A successful `save()` of a fresh document. -/
def insertCita (s : Store) (c : Cita) : Store := ⟨s.citas ++ [c], s.nextId + 1⟩

/-- Net effect on the store of the calendar try-block: when
`calendar.events.insert` returned an event id and the follow-up `save()`
succeeded, the reference is attached; any failure is caught and leaves
the store as the reservation left it. -/
def storeTrasIntegraciones (col : Colaboradores) (s1 : Store) (id : Nat) : Store :=
  match col.calendarEvent with
  | some eid => if col.attachSaveOk then setEventId s1 id eid else s1
  | none => s1

/-- The `POST /api/appointments` handler: validation, findOne check,
save under the unique index (E11000 ↦ 409), then the two independent
best-effort integrations, each in its own try/catch. The response's
`googleCalendar` flag is `!!googleEventId`, which is set as soon as
`calendar.events.insert` returns, before the attaching `save()`. -/
def postAppointment (now : Nat) (col : Colaboradores) (s : Store) (r : Request) :
    PostResult × Store × Effects :=
  let errores := validar now r
  if errores ≠ [] then
    (PostResult.validationFailed errores, s, noEffects)
  else
    match r.fecha with
    | none => (PostResult.serverError, s, noEffects)
    | some fecha =>
      if citaExistente s fecha r.horario then
        (PostResult.slotTaken, s, noEffects)
      else if hayCitaEnSlot s fecha r.horario then
        (PostResult.slotTaken, s, noEffects)
      else if col.saveOk = false then
        (PostResult.serverError, s, noEffects)
      else
        let nuevaCita := nuevaCitaDe s r fecha
        (PostResult.created s.nextId col.calendarEvent.isSome col.smsOk,
          storeTrasIntegraciones col (insertCita s nuevaCita) s.nextId,
          ⟨true, true⟩)

/-- `GET /api/appointments/occupied`: (fecha, horario) of documents with
`estado: 'confirmada'` and `fecha: \x7b $gte: new Date() \x7d` — the current
instant, not midnight. A pure read of the store. -/
def listOccupied (now : Nat) (s : Store) : List (Nat × String) :=
  (s.citas.filter (fun c => decide (c.estado = Estado.confirmada ∧ now ≤ c.fecha))).map
    (fun c => (c.fecha, c.horario))

/-- What the spec says `listOccupiedSlots` returns: pairs with status
confirmed and date ≥ today, today meaning the current calendar day. -/
def listOccupiedSpec (now : Nat) (s : Store) : List (Nat × String) :=
  (s.citas.filter (fun c => decide (c.estado = Estado.confirmada ∧ startOfDay now ≤ c.fecha))).map
    (fun c => (c.fecha, c.horario))

/-- HTTP outcome of `PATCH /api/appointments/:id/cancel`. -/
inductive CancelResult where
  | notFound
  | cancelled (id : Nat) (estado : Estado)
deriving DecidableEq, Repr

/-- The cancel handler: `findByIdAndUpdate(id, {estado:'cancelada'}, {new:true})`;
404 when the id matches nothing, otherwise 200 with the updated status.
The best-effort Google Calendar event deletion touches neither the store
nor the response. -/
def cancelAppointment (s : Store) (id : Nat) : CancelResult × Store :=
  match findById s id with
  | none => (CancelResult.notFound, s)
  | some _ =>
    (CancelResult.cancelled id Estado.cancelada,
      ⟨s.citas.map (fun c => if c.id = id then { c with estado := Estado.cancelada } else c),
        s.nextId⟩)

/-!
Interleaving model of two concurrent `POST /api/appointments` requests
for the same slot. Each request performs two individually atomic storage
operations: the `findOne` availability check, then the `save` that is
subject to the unique index on (fecha, horario). The race window lies
between the two. A process ends `won` (201 created) or `lost` (409, from
the check or from the E11000 duplicate-key handler).
-/

/-- Progress of one reservation request through its two storage steps. -/
inductive PState where
  | start
  | checked
  | won (id : Nat)
  | lost
deriving DecidableEq, Repr

/-- A finished process has produced its HTTP response. -/
def finished : PState → Bool
  | PState.start => false
  | PState.checked => false
  | PState.won _ => true
  | PState.lost => true

/-- One atomic storage step of a reservation request inserting `c`. -/
def stepReserve (c : Cita) (p : PState) (s : Store) : PState × Store :=
  match p with
  | PState.start =>
      if citaExistente s c.fecha c.horario then (PState.lost, s) else (PState.checked, s)
  | PState.checked =>
      if hayCitaEnSlot s c.fecha c.horario then (PState.lost, s)
      else (PState.won c.id, insertCita s c)
  | p => (p, s)

/-- Joint state of the two racing requests and the shared store. -/
structure SysState where
  p1 : PState
  p2 : PState
  store : Store
deriving DecidableEq, Repr

/-- Let the scheduled process (`true` = first) take one storage step. -/
def sysStep (c1 c2 : Cita) (st : SysState) (w : Bool) : SysState :=
  if w then
    let q := stepReserve c1 st.p1 st.store
    ⟨q.1, st.p2, q.2⟩
  else
    let q := stepReserve c2 st.p2 st.store
    ⟨st.p1, q.1, q.2⟩

/-- Run the two requests under an arbitrary interleaving. -/
def runSched (c1 c2 : Cita) (sched : List Bool) (st : SysState) : SysState :=
  sched.foldl (sysStep c1 c2) st

/-! Concrete values for counterexamples and witnesses. -/

/-- A request body whose non-varying fields are all valid. -/
def reqEj (f : Option Nat) (h : String) : Request :=
  { nombreCompleto := "Ana Lopez", email := "ana@example.com",
    telefono := "+50370001111", tipoServicio := "limpieza-dental",
    fecha := f, horario := h }

/-- A stored document with valid fixed patient fields. -/
def citaEj (id f : Nat) (h : String) (e : Estado) : Cita :=
  { id := id, nombreCompleto := "Ana Lopez", email := "ana@example.com",
    telefono := "+50370001111", tipoServicio := "limpieza-dental",
    fecha := f, horario := h, estado := e, googleCalendarEventId := none }

/-- Collaborator outcomes with the reservation save succeeding. -/
def colEj (cal : Option String) (attach sms : Bool) : Colaboradores :=
  { saveOk := true, calendarEvent := cal, attachSaveOk := attach, smsOk := sms }

/-- The server clock: 01:00 on day 1 of the model timeline. -/
def now0 : Nat := minutesPerDay + 60

/-- Outcome of reserving day 2, 09:00 against an empty store. -/
def c1Reserva : PostResult × Store × Effects :=
  postAppointment now0 (colEj (some "evt-1") true true) emptyStore
    (reqEj (some (2 * minutesPerDay)) "09:00")

/-- The store after that reservation has been cancelled. -/
def c1TrasCancelacion : Store := (cancelAppointment c1Reserva.2.1 0).2

/-- Store holding one confirmed appointment for day 0, slot 08:00. -/
def c7Store : Store := ⟨[citaEj 0 0 "08:00" Estado.confirmada], 1⟩

/-- First racing draft: day 2, 09:00, to be stored with id 1. -/
def cW1 : Cita := citaEj 1 (2 * minutesPerDay) "09:00" Estado.confirmada

/-- Second racing draft for the same (fecha, horario), id 2. -/
def cW2 : Cita := citaEj 2 (2 * minutesPerDay) "09:00" Estado.confirmada

/-- A reservation request that has not yet produced its response. -/
def notDoneP (p : PState) : Prop := p = PState.start ∨ p = PState.checked

/-- Inductive invariant of the two-request race on the key
(c1.fecha, c1.horario): either nobody has inserted yet and the key is
free, or exactly one process has won, the key holds exactly the winner's
document, and the other process can only still be running or have lost. -/
def Inv (c1 c2 : Cita) (st : SysState) : Prop :=
  (notDoneP st.p1 ∧ notDoneP st.p2 ∧ docsAt st.store c1.fecha c1.horario = []) ∨
  (st.p1 = PState.won c1.id ∧ (notDoneP st.p2 ∨ st.p2 = PState.lost) ∧
    docsAt st.store c1.fecha c1.horario = [c1]) ∨
  (st.p2 = PState.won c2.id ∧ (notDoneP st.p1 ∨ st.p1 = PState.lost) ∧
    docsAt st.store c1.fecha c1.horario = [c2])

/-! Bridging lemmas between the Boolean store queries and their
propositional content. -/

theorem citaExistente_iff (s : Store) (f : Nat) (h : String) :
    citaExistente s f h = true ↔
      ∃ c ∈ s.citas, c.fecha = f ∧ c.horario = h ∧ c.estado = Estado.confirmada := by
  simp [citaExistente, List.any_eq_true]

theorem hayCitaEnSlot_iff (s : Store) (f : Nat) (h : String) :
    hayCitaEnSlot s f h = true ↔ ∃ c ∈ s.citas, c.fecha = f ∧ c.horario = h := by
  simp [hayCitaEnSlot, List.any_eq_true]

theorem mem_docsAt_iff (s : Store) (f : Nat) (h : String) (c : Cita) :
    c ∈ docsAt s f h ↔ c ∈ s.citas ∧ c.fecha = f ∧ c.horario = h := by
  simp [docsAt, List.mem_filter]

theorem citaExistente_eq_false_of_docsAt_nil (s : Store) (f : Nat) (h : String)
    (hd : docsAt s f h = []) : citaExistente s f h = false := by
  cases hq : citaExistente s f h
  · rfl
  · exfalso
    rcases (citaExistente_iff s f h).mp hq with ⟨c, hc, h1, h2, _⟩
    have hmem : c ∈ docsAt s f h := (mem_docsAt_iff s f h c).mpr ⟨hc, h1, h2⟩
    rw [hd] at hmem
    exact List.not_mem_nil c hmem

theorem hayCitaEnSlot_eq_false_of_docsAt_nil (s : Store) (f : Nat) (h : String)
    (hd : docsAt s f h = []) : hayCitaEnSlot s f h = false := by
  cases hq : hayCitaEnSlot s f h
  · rfl
  · exfalso
    rcases (hayCitaEnSlot_iff s f h).mp hq with ⟨c, hc, h1, h2⟩
    have hmem : c ∈ docsAt s f h := (mem_docsAt_iff s f h c).mpr ⟨hc, h1, h2⟩
    rw [hd] at hmem
    exact List.not_mem_nil c hmem

theorem citaExistente_eq_true_of_mem_docsAt (s : Store) (f : Nat) (h : String) (c : Cita)
    (hmem : c ∈ docsAt s f h) (he : c.estado = Estado.confirmada) :
    citaExistente s f h = true := by
  rcases (mem_docsAt_iff s f h c).mp hmem with ⟨hc, h1, h2⟩
  exact (citaExistente_iff s f h).mpr ⟨c, hc, h1, h2, he⟩

theorem hayCitaEnSlot_eq_true_of_mem_docsAt (s : Store) (f : Nat) (h : String) (c : Cita)
    (hmem : c ∈ docsAt s f h) : hayCitaEnSlot s f h = true := by
  rcases (mem_docsAt_iff s f h c).mp hmem with ⟨hc, h1, h2⟩
  exact (hayCitaEnSlot_iff s f h).mpr ⟨c, hc, h1, h2⟩

theorem docsAt_insertCita (s : Store) (c : Cita) (f : Nat) (h : String)
    (h1 : c.fecha = f) (h2 : c.horario = h) :
    docsAt (insertCita s c) f h = docsAt s f h ++ [c] := by
  simp [docsAt, insertCita, List.filter_append, h1, h2]

/-- Reduction of `postAppointment` on the success path. -/
theorem postAppointment_success_eq (now : Nat) (col : Colaboradores) (s : Store)
    (r : Request) (f : Nat) (hf : r.fecha = some f) (hv : validar now r = [])
    (hc : citaExistente s f r.horario = false)
    (hu : hayCitaEnSlot s f r.horario = false)
    (hs : col.saveOk = true) :
    postAppointment now col s r =
      (PostResult.created s.nextId col.calendarEvent.isSome col.smsOk,
        storeTrasIntegraciones col (insertCita s (nuevaCitaDe s r f)) s.nextId,
        ⟨true, true⟩) := by
  simp [postAppointment, hv, hf, hc, hu, hs]

/-- C1: the claim says cancelling a confirmed appointment frees its
(date, slot) pair so a subsequent reserve succeeds. The code violates
this: the unique index on (fecha, horario) is not scoped to confirmed
documents and cancellation never deletes, so even though the
application-level confirmed check passes after cancellation, the insert
hits E11000 and the handler answers 409 SlotTaken. -/
theorem c1_cancelled_slot_not_freed :
    c1Reserva.1 = PostResult.created 0 true true ∧
    (cancelAppointment c1Reserva.2.1 0).1 = CancelResult.cancelled 0 Estado.cancelada ∧
    citaExistente c1TrasCancelacion (2 * minutesPerDay) "09:00" = false ∧
    hayCitaEnSlot c1TrasCancelacion (2 * minutesPerDay) "09:00" = true ∧
    (postAppointment now0 (colEj (some "evt-1") true true) c1TrasCancelacion
        (reqEj (some (2 * minutesPerDay)) "09:00")).1 = PostResult.slotTaken := by
  decide

/-- C3: whenever the reservation save succeeds, the handler answers 201
with the generated id and the two integration flags, each reflecting its
own collaborator's outcome only, and both integrations are attempted
whatever the other's outcome. -/
theorem c3_respuesta_exitosa_con_flags_independientes (now : Nat) (col : Colaboradores)
    (s : Store) (r : Request) (f : Nat) (hf : r.fecha = some f)
    (hv : validar now r = []) (hc : citaExistente s f r.horario = false)
    (hu : hayCitaEnSlot s f r.horario = false) (hs : col.saveOk = true) :
    (postAppointment now col s r).1 =
      PostResult.created s.nextId col.calendarEvent.isSome col.smsOk ∧
    (postAppointment now col s r).2.2 = ⟨true, true⟩ := by
  rw [postAppointment_success_eq now col s r f hf hv hc hu hs]
  exact ⟨rfl, rfl⟩

/-- Witness for C3 at a concrete input where both integrations fail and
the booking still succeeds with both flags false and both attempted. -/
theorem c3_witness :
    (postAppointment now0 (colEj none false false) emptyStore
        (reqEj (some (2 * minutesPerDay)) "08:00")).1 =
      PostResult.created 0 false false ∧
    (postAppointment now0 (colEj none false false) emptyStore
        (reqEj (some (2 * minutesPerDay)) "08:00")).2.2 = ⟨true, true⟩ :=
  c3_respuesta_exitosa_con_flags_independientes now0 (colEj none false false) emptyStore
    (reqEj (some (2 * minutesPerDay)) "08:00") (2 * minutesPerDay) rfl (by decide)
    (by decide) (by decide) rfl

/-- C4: when the slot is already taken — whether the findOne check sees
a confirmed appointment or the save trips the unique index — the handler
answers 409, the store is unchanged, and neither integration is
attempted. -/
theorem c4_conflicto_sin_efectos (now : Nat) (col : Colaboradores) (s : Store)
    (r : Request) (f : Nat) (hf : r.fecha = some f) (hv : validar now r = [])
    (ht : citaExistente s f r.horario = true ∨ hayCitaEnSlot s f r.horario = true) :
    postAppointment now col s r = (PostResult.slotTaken, s, noEffects) := by
  by_cases hc : citaExistente s f r.horario = true
  · simp [postAppointment, hv, hf, hc]
  · rcases ht with ht | ht
    · exact absurd ht hc
    · have hc' : citaExistente s f r.horario = false := by
        cases hq : citaExistente s f r.horario
        · rfl
        · exact absurd hq hc
      simp [postAppointment, hv, hf, hc', ht]

/-- Witness for C4: a second identical booking against a store already
holding the confirmed appointment yields 409 and changes nothing. -/
theorem c4_witness :
    postAppointment now0 (colEj (some "evt-4") true true)
        ⟨[citaEj 0 (2 * minutesPerDay) "09:00" Estado.confirmada], 1⟩
        (reqEj (some (2 * minutesPerDay)) "09:00") =
      (PostResult.slotTaken,
        ⟨[citaEj 0 (2 * minutesPerDay) "09:00" Estado.confirmada], 1⟩, noEffects) :=
  c4_conflicto_sin_efectos now0 (colEj (some "evt-4") true true)
    ⟨[citaEj 0 (2 * minutesPerDay) "09:00" Estado.confirmada], 1⟩
    (reqEj (some (2 * minutesPerDay)) "09:00") (2 * minutesPerDay) rfl (by decide)
    (Or.inl (by decide))

/-- C6: a parsed date strictly before the server's current day fails the
custom date validator, so the request is answered 400 with `fecha` among
the reported fields and the store untouched, whatever the other fields
hold. -/
theorem c6_fecha_pasada_rechazada (now : Nat) (col : Colaboradores) (s : Store)
    (r : Request) (f : Nat) (hf : r.fecha = some f) (hlt : f < startOfDay now) :
    (postAppointment now col s r).1 = PostResult.validationFailed (validar now r) ∧
    "fecha" ∈ validar now r ∧
    (postAppointment now col s r).2.1 = s := by
  have hfo : fechaOk now r.fecha = false := by
    rw [hf]
    simp only [fechaOk, decide_eq_false_iff_not]
    omega
  have hmem : "fecha" ∈ validar now r := by
    simp [validar, hfo]
  have hne : validar now r ≠ [] := by
    intro h0
    rw [h0] at hmem
    exact List.not_mem_nil _ hmem
  refine ⟨?_, hmem, ?_⟩ <;> simp [postAppointment, hne]

/-- Witness for C6: a request for day 0 made on day 1 is rejected even
though every other field is valid. -/
theorem c6_witness :
    (postAppointment now0 (colEj (some "evt-6") true true) emptyStore
        (reqEj (some 0) "11:00")).1 =
      PostResult.validationFailed (validar now0 (reqEj (some 0) "11:00")) ∧
    "fecha" ∈ validar now0 (reqEj (some 0) "11:00") ∧
    (postAppointment now0 (colEj (some "evt-6") true true) emptyStore
        (reqEj (some 0) "11:00")).2.1 = emptyStore :=
  c6_fecha_pasada_rechazada now0 (colEj (some "evt-6") true true) emptyStore
    (reqEj (some 0) "11:00") 0 rfl (by decide)

/-- C9: when `calendar.events.insert` succeeds but the save attaching the
returned reference fails, the booking still succeeds and the response's
calendar flag is true while the persisted document carries no calendar
reference: the flag reflects event creation, not attachment. -/
theorem c9_flag_refleja_creacion_no_adjuncion (now : Nat) (col : Colaboradores)
    (s : Store) (r : Request) (f : Nat) (eid : String) (hf : r.fecha = some f)
    (hv : validar now r = []) (hc : citaExistente s f r.horario = false)
    (hu : hayCitaEnSlot s f r.horario = false) (hs : col.saveOk = true)
    (hcal : col.calendarEvent = some eid) (hat : col.attachSaveOk = false) :
    postAppointment now col s r =
      (PostResult.created s.nextId true col.smsOk,
        insertCita s (nuevaCitaDe s r f), ⟨true, true⟩) ∧
    (nuevaCitaDe s r f).googleCalendarEventId = none := by
  rw [postAppointment_success_eq now col s r f hf hv hc hu hs]
  refine ⟨?_, rfl⟩
  simp [storeTrasIntegraciones, hcal, hat]

theorem mem_ite_nil_singleton (b : Bool) (x y : String) :
    (x ∈ (if b = true then ([] : List String) else [y])) ↔ (b = false ∧ x = y) := by
  cases b <;> simp

/-- C5: when any validator chain fails, the handler answers 400 carrying
the full error list, the store is untouched and no side effect is
attempted; the error list contains exactly the failing fields — each of
the six fields appears in it precisely when its own validator failed. -/
theorem c5_validacion_enumera_todos_los_campos (now : Nat) (col : Colaboradores)
    (s : Store) (r : Request) (hv : validar now r ≠ []) :
    postAppointment now col s r =
      (PostResult.validationFailed (validar now r), s, noEffects) ∧
    ("nombreCompleto" ∈ validar now r ↔ nombreOk r.nombreCompleto = false) ∧
    ("email" ∈ validar now r ↔ isEmail r.email = false) ∧
    ("telefono" ∈ validar now r ↔ telefonoOk r.telefono = false) ∧
    ("tipoServicio" ∈ validar now r ↔ servicioOk r.tipoServicio = false) ∧
    ("fecha" ∈ validar now r ↔ fechaOk now r.fecha = false) ∧
    ("horario" ∈ validar now r ↔ horarioOk r.horario = false) := by
  refine ⟨by simp [postAppointment, hv], ?_, ?_, ?_, ?_, ?_, ?_⟩ <;>
    simp [validar, List.mem_append, mem_ite_nil_singleton]

/-- Witness for C5: a request failing two independent validators (phone
pattern and slot enumeration) reports both fields at once. -/
theorem c5_witness :
    postAppointment now0 (colEj (some "evt-5") true true) emptyStore
        { nombreCompleto := "Ana Lopez", email := "ana@example.com",
          telefono := "12345", tipoServicio := "limpieza-dental",
          fecha := some (2 * minutesPerDay), horario := "12:00" } =
      (PostResult.validationFailed
        (validar now0
          { nombreCompleto := "Ana Lopez", email := "ana@example.com",
            telefono := "12345", tipoServicio := "limpieza-dental",
            fecha := some (2 * minutesPerDay), horario := "12:00" }),
        emptyStore, noEffects) ∧
    ("nombreCompleto" ∈ validar now0
        { nombreCompleto := "Ana Lopez", email := "ana@example.com",
          telefono := "12345", tipoServicio := "limpieza-dental",
          fecha := some (2 * minutesPerDay), horario := "12:00" } ↔
      nombreOk "Ana Lopez" = false) ∧
    ("email" ∈ validar now0
        { nombreCompleto := "Ana Lopez", email := "ana@example.com",
          telefono := "12345", tipoServicio := "limpieza-dental",
          fecha := some (2 * minutesPerDay), horario := "12:00" } ↔
      isEmail "ana@example.com" = false) ∧
    ("telefono" ∈ validar now0
        { nombreCompleto := "Ana Lopez", email := "ana@example.com",
          telefono := "12345", tipoServicio := "limpieza-dental",
          fecha := some (2 * minutesPerDay), horario := "12:00" } ↔
      telefonoOk "12345" = false) ∧
    ("tipoServicio" ∈ validar now0
        { nombreCompleto := "Ana Lopez", email := "ana@example.com",
          telefono := "12345", tipoServicio := "limpieza-dental",
          fecha := some (2 * minutesPerDay), horario := "12:00" } ↔
      servicioOk "limpieza-dental" = false) ∧
    ("fecha" ∈ validar now0
        { nombreCompleto := "Ana Lopez", email := "ana@example.com",
          telefono := "12345", tipoServicio := "limpieza-dental",
          fecha := some (2 * minutesPerDay), horario := "12:00" } ↔
      fechaOk now0 (some (2 * minutesPerDay)) = false) ∧
    ("horario" ∈ validar now0
        { nombreCompleto := "Ana Lopez", email := "ana@example.com",
          telefono := "12345", tipoServicio := "limpieza-dental",
          fecha := some (2 * minutesPerDay), horario := "12:00" } ↔
      horarioOk "12:00" = false) :=
  c5_validacion_enumera_todos_los_campos now0 (colEj (some "evt-5") true true) emptyStore
    { nombreCompleto := "Ana Lopez", email := "ana@example.com",
      telefono := "12345", tipoServicio := "limpieza-dental",
      fecha := some (2 * minutesPerDay), horario := "12:00" } (by decide)

/-- Witness for C9 at a concrete input. -/
theorem c9_witness :
    postAppointment now0 (colEj (some "evt-9") false true) emptyStore
        (reqEj (some (2 * minutesPerDay)) "10:00") =
      (PostResult.created 0 true true,
        insertCita emptyStore
          (nuevaCitaDe emptyStore (reqEj (some (2 * minutesPerDay)) "10:00")
            (2 * minutesPerDay)), ⟨true, true⟩) ∧
    (nuevaCitaDe emptyStore (reqEj (some (2 * minutesPerDay)) "10:00")
        (2 * minutesPerDay)).googleCalendarEventId = none :=
  c9_flag_refleja_creacion_no_adjuncion now0 (colEj (some "evt-9") false true) emptyStore
    (reqEj (some (2 * minutesPerDay)) "10:00") (2 * minutesPerDay) "evt-9" rfl (by decide)
    (by decide) (by decide) rfl rfl rfl

/-- C7 counterexample: at 01:00 on day 0, a confirmed appointment for
day 0 satisfies the spec's "status = confirmed and date ≥ today", yet
`GET /api/appointments/occupied` omits it, because the query compares
against the current instant (`new Date()`), not the start of the day. -/
theorem c7_counterexample :
    (citaEj 0 0 "08:00" Estado.confirmada).estado = Estado.confirmada ∧
    startOfDay 60 ≤ (citaEj 0 0 "08:00" Estado.confirmada).fecha ∧
    citaEj 0 0 "08:00" Estado.confirmada ∈ c7Store.citas ∧
    listOccupied 60 c7Store = [] ∧
    listOccupiedSpec 60 c7Store = [(0, "08:00")] := by
  decide

theorem mem_storeTrasIntegraciones (col : Colaboradores) (s1 : Store) (id : Nat)
    (c : Cita) (hmem : c ∈ s1.citas) :
    ∃ c' ∈ (storeTrasIntegraciones col s1 id).citas,
      c'.estado = c.estado ∧ c'.fecha = c.fecha ∧ c'.horario = c.horario := by
  unfold storeTrasIntegraciones
  cases hcal : col.calendarEvent with
  | none => exact ⟨c, hmem, rfl, rfl, rfl⟩
  | some eid =>
    cases hat : col.attachSaveOk
    · exact ⟨c, hmem, rfl, rfl, rfl⟩
    · simp only [if_pos rfl, setEventId]
      refine ⟨if c.id = id then { c with googleCalendarEventId := some eid } else c,
        List.mem_map_of_mem _ hmem, ?_⟩
      by_cases h : c.id = id <;> simp [h]

/-- C7 (amended): the occupied listing returns exactly the
(fecha, horario) pairs of confirmed appointments whose date-timestamp is
at or after the current instant — which excludes appointments of the
current day once the instant has passed midnight — and it is a pure read
of the store; a successful reserve for a date at or after the instant is
immediately visible in it. -/
theorem c7_occupied_amended (now : Nat) (col : Colaboradores) (s : Store) (r : Request)
    (f : Nat) (p : Nat × String) (hf : r.fecha = some f) (hv : validar now r = [])
    (hc : citaExistente s f r.horario = false)
    (hu : hayCitaEnSlot s f r.horario = false) (hs : col.saveOk = true)
    (hfut : now ≤ f) :
    (p ∈ listOccupied now s ↔
      ∃ c ∈ s.citas, c.estado = Estado.confirmada ∧ now ≤ c.fecha ∧
        p = (c.fecha, c.horario)) ∧
    (f, r.horario) ∈ listOccupied now (postAppointment now col s r).2.1 := by
  constructor
  · simp only [listOccupied, List.mem_map, List.mem_filter, decide_eq_true_eq]
    constructor
    · rintro ⟨c, ⟨hm, he, hge⟩, hp⟩
      exact ⟨c, hm, he, hge, hp.symm⟩
    · rintro ⟨c, hm, he, hge, hp⟩
      exact ⟨c, ⟨hm, he, hge⟩, hp.symm⟩
  · rw [postAppointment_success_eq now col s r f hf hv hc hu hs]
    have hnew : nuevaCitaDe s r f ∈ (insertCita s (nuevaCitaDe s r f)).citas := by
      simp [insertCita]
    rcases mem_storeTrasIntegraciones col (insertCita s (nuevaCitaDe s r f)) s.nextId
        (nuevaCitaDe s r f) hnew with ⟨c', hc', he, hfe, hh⟩
    simp only [listOccupied, List.mem_map, List.mem_filter, decide_eq_true_eq]
    refine ⟨c', ⟨hc', ?_, ?_⟩, ?_⟩
    · rw [he]; rfl
    · rw [hfe]; exact hfut
    · rw [hfe, hh]; rfl

/-- Witness for C7 (amended) at a concrete input: a fresh reserve for
day 2, 13:00 appears in the occupied listing taken at 01:00 of day 1. -/
theorem c7_witness :
    (((2 * minutesPerDay, "13:00") : Nat × String) ∈ listOccupied now0 emptyStore ↔
      ∃ c ∈ emptyStore.citas, c.estado = Estado.confirmada ∧ now0 ≤ c.fecha ∧
        ((2 * minutesPerDay, "13:00") : Nat × String) = (c.fecha, c.horario)) ∧
    ((2 * minutesPerDay, "13:00") : Nat × String) ∈ listOccupied now0
      (postAppointment now0 (colEj (some "evt-7") true true) emptyStore
        (reqEj (some (2 * minutesPerDay)) "13:00")).2.1 :=
  c7_occupied_amended now0 (colEj (some "evt-7") true true) emptyStore
    (reqEj (some (2 * minutesPerDay)) "13:00") (2 * minutesPerDay)
    (2 * minutesPerDay, "13:00") rfl (by decide) (by decide) (by decide) rfl
    (by decide)

theorem findById_cancel_update (s : Store) (id : Nat) :
    findById
        ⟨s.citas.map (fun c =>
          if c.id = id then { c with estado := Estado.cancelada } else c), s.nextId⟩ id
      = (findById s id).map (fun c =>
          if c.id = id then { c with estado := Estado.cancelada } else c) := by
  have hpf : ((fun c : Cita => decide (c.id = id)) ∘ (fun c : Cita =>
      if c.id = id then { c with estado := Estado.cancelada } else c)) =
      (fun c : Cita => decide (c.id = id)) := by
    funext c
    by_cases h : c.id = id <;> simp [h, Function.comp]
  unfold findById
  rw [List.find?_map, hpf]

theorem cancelAppointment_of_found (s : Store) (id : Nat) (c : Cita)
    (hc : findById s id = some c) :
    cancelAppointment s id =
      (CancelResult.cancelled id Estado.cancelada,
        ⟨s.citas.map (fun x =>
          if x.id = id then { x with estado := Estado.cancelada } else x), s.nextId⟩) := by
  simp [cancelAppointment, hc]

theorem findById_some_id (s : Store) (id : Nat) (c : Cita)
    (hc : findById s id = some c) : c.id = id := by
  have hp := List.find?_some hc
  simpa using hp

/-- C8: the cancel endpoint answers 404 exactly when the identifier
matches no stored appointment; on a match it answers with the identifier
and status cancelled, and cancelling the already-cancelled appointment
again is again answered with status cancelled, not an error. -/
theorem c8_cancel_semantica (s : Store) (id : Nat) :
    ((cancelAppointment s id).1 = CancelResult.notFound ↔ findById s id = none) ∧
    (∀ c, findById s id = some c →
      (cancelAppointment s id).1 = CancelResult.cancelled id Estado.cancelada) ∧
    (∀ c, findById s id = some c →
      findById (cancelAppointment s id).2 id =
        some { c with estado := Estado.cancelada }) ∧
    (∀ c, findById s id = some c →
      (cancelAppointment (cancelAppointment s id).2 id).1 =
        CancelResult.cancelled id Estado.cancelada) := by
  refine ⟨?_, ?_, ?_, ?_⟩
  · unfold cancelAppointment
    cases hq : findById s id <;> simp
  · intro c hc
    simp [cancelAppointment, hc]
  · intro c hc
    have hid : c.id = id := findById_some_id s id c hc
    simp [cancelAppointment, hc, findById_cancel_update, hid]
  · intro c hc
    have h2 : findById
        (⟨s.citas.map (fun x =>
          if x.id = id then { x with estado := Estado.cancelada } else x),
          s.nextId⟩ : Store) id =
        some (if c.id = id then { c with estado := Estado.cancelada } else c) := by
      rw [findById_cancel_update, hc]
      rfl
    simp [cancelAppointment_of_found s id c hc, cancelAppointment_of_found _ id _ h2]

/-- Witness for C8 at a concrete store: unknown-id iff, first cancel,
and re-cancel. -/
theorem c8_witness :
    ((cancelAppointment c7Store 0).1 = CancelResult.notFound ↔
      findById c7Store 0 = none) ∧
    (cancelAppointment c7Store 0).1 = CancelResult.cancelled 0 Estado.cancelada ∧
    findById (cancelAppointment c7Store 0).2 0 =
      some { citaEj 0 0 "08:00" Estado.confirmada with estado := Estado.cancelada } ∧
    (cancelAppointment (cancelAppointment c7Store 0).2 0).1 =
      CancelResult.cancelled 0 Estado.cancelada :=
  ⟨(c8_cancel_semantica c7Store 0).1,
    (c8_cancel_semantica c7Store 0).2.1 (citaEj 0 0 "08:00" Estado.confirmada) (by decide),
    (c8_cancel_semantica c7Store 0).2.2.1 (citaEj 0 0 "08:00" Estado.confirmada) (by decide),
    (c8_cancel_semantica c7Store 0).2.2.2 (citaEj 0 0 "08:00" Estado.confirmada) (by decide)⟩

/-- C10: `findByIdAndUpdate(id, \x7b estado: 'cancelada' \x7d)` is
unconditional: any stored appointment, whatever its prior status —
including `completada` — is moved to `cancelada` and the response
reports status cancelled. -/
theorem c10_cancel_incondicional (s : Store) (id : Nat) (c : Cita)
    (hc : findById s id = some c) :
    (cancelAppointment s id).1 = CancelResult.cancelled id Estado.cancelada ∧
    findById (cancelAppointment s id).2 id =
      some { c with estado := Estado.cancelada } := by
  have hid : c.id = id := findById_some_id s id c hc
  constructor
  · simp [cancelAppointment, hc]
  · simp [cancelAppointment, hc, findById_cancel_update, hid]

/-! Step-equation lemmas for the interleaving model. -/

theorem stepReserve_start_free (c : Cita) (s : Store)
    (hce : citaExistente s c.fecha c.horario = false) :
    stepReserve c PState.start s = (PState.checked, s) := by
  simp [stepReserve, hce]

theorem stepReserve_start_taken (c : Cita) (s : Store)
    (hce : citaExistente s c.fecha c.horario = true) :
    stepReserve c PState.start s = (PState.lost, s) := by
  simp [stepReserve, hce]

theorem stepReserve_checked_free (c : Cita) (s : Store)
    (hu : hayCitaEnSlot s c.fecha c.horario = false) :
    stepReserve c PState.checked s = (PState.won c.id, insertCita s c) := by
  simp [stepReserve, hu]

theorem stepReserve_checked_taken (c : Cita) (s : Store)
    (hu : hayCitaEnSlot s c.fecha c.horario = true) :
    stepReserve c PState.checked s = (PState.lost, s) := by
  simp [stepReserve, hu]

theorem stepReserve_won (c : Cita) (s : Store) (i : Nat) :
    stepReserve c (PState.won i) s = (PState.won i, s) := rfl

theorem stepReserve_lost (c : Cita) (s : Store) :
    stepReserve c PState.lost s = (PState.lost, s) := rfl

theorem sysStep_true (c1 c2 : Cita) (p1 p2 : PState) (s : Store) :
    sysStep c1 c2 ⟨p1, p2, s⟩ true =
      ⟨(stepReserve c1 p1 s).1, p2, (stepReserve c1 p1 s).2⟩ := rfl

theorem sysStep_false (c1 c2 : Cita) (p1 p2 : PState) (s : Store) :
    sysStep c1 c2 ⟨p1, p2, s⟩ false =
      ⟨p1, (stepReserve c2 p2 s).1, (stepReserve c2 p2 s).2⟩ := rfl

/-- One interleaved step preserves the race invariant. -/
theorem inv_sysStep (c1 c2 : Cita) (st : SysState) (w : Bool)
    (hf : c2.fecha = c1.fecha) (hh : c2.horario = c1.horario)
    (he1 : c1.estado = Estado.confirmada) (he2 : c2.estado = Estado.confirmada)
    (hinv : Inv c1 c2 st) : Inv c1 c2 (sysStep c1 c2 st w) := by
  obtain ⟨p1, p2, s⟩ := st
  cases w with
  | true =>
    rcases hinv with ⟨h1, h2, h3⟩ | ⟨h1, h2, h3⟩ | ⟨h1, h2, h3⟩
    · rcases h1 with h1 | h1
      · subst h1
        rw [sysStep_true,
          stepReserve_start_free c1 s (citaExistente_eq_false_of_docsAt_nil s _ _ h3)]
        exact Or.inl ⟨Or.inr rfl, h2, h3⟩
      · subst h1
        rw [sysStep_true,
          stepReserve_checked_free c1 s (hayCitaEnSlot_eq_false_of_docsAt_nil s _ _ h3)]
        refine Or.inr (Or.inl ⟨rfl, Or.inl h2, ?_⟩)
        rw [docsAt_insertCita s c1 c1.fecha c1.horario rfl rfl, h3]
        rfl
    · rw [show p1 = PState.won c1.id from h1, sysStep_true, stepReserve_won]
      exact Or.inr (Or.inl ⟨rfl, h2, h3⟩)
    · have hmem : c2 ∈ docsAt s c1.fecha c1.horario := by
        rw [h3]
        exact List.mem_singleton.mpr rfl
      rcases h2 with (h2 | h2) | h2
      · subst h2
        rw [sysStep_true, stepReserve_start_taken c1 s
          (citaExistente_eq_true_of_mem_docsAt s _ _ c2 hmem he2)]
        exact Or.inr (Or.inr ⟨h1, Or.inr rfl, h3⟩)
      · subst h2
        rw [sysStep_true, stepReserve_checked_taken c1 s
          (hayCitaEnSlot_eq_true_of_mem_docsAt s _ _ c2 hmem)]
        exact Or.inr (Or.inr ⟨h1, Or.inr rfl, h3⟩)
      · subst h2
        rw [sysStep_true, stepReserve_lost]
        exact Or.inr (Or.inr ⟨h1, Or.inr rfl, h3⟩)
  | false =>
    rcases hinv with ⟨h1, h2, h3⟩ | ⟨h1, h2, h3⟩ | ⟨h1, h2, h3⟩
    · rcases h2 with h2 | h2
      · subst h2
        have hce : citaExistente s c2.fecha c2.horario = false := by
          rw [hf, hh]
          exact citaExistente_eq_false_of_docsAt_nil s _ _ h3
        rw [sysStep_false, stepReserve_start_free c2 s hce]
        exact Or.inl ⟨h1, Or.inr rfl, h3⟩
      · subst h2
        have hu : hayCitaEnSlot s c2.fecha c2.horario = false := by
          rw [hf, hh]
          exact hayCitaEnSlot_eq_false_of_docsAt_nil s _ _ h3
        rw [sysStep_false, stepReserve_checked_free c2 s hu]
        refine Or.inr (Or.inr ⟨rfl, Or.inl h1, ?_⟩)
        rw [docsAt_insertCita s c2 c1.fecha c1.horario hf hh, h3]
        rfl
    · have hmem : c1 ∈ docsAt s c1.fecha c1.horario := by
        rw [h3]
        exact List.mem_singleton.mpr rfl
      rcases h2 with (h2 | h2) | h2
      · subst h2
        have hce : citaExistente s c2.fecha c2.horario = true := by
          rw [hf, hh]
          exact citaExistente_eq_true_of_mem_docsAt s _ _ c1 hmem he1
        rw [sysStep_false, stepReserve_start_taken c2 s hce]
        exact Or.inr (Or.inl ⟨h1, Or.inr rfl, h3⟩)
      · subst h2
        have hu : hayCitaEnSlot s c2.fecha c2.horario = true := by
          rw [hf, hh]
          exact hayCitaEnSlot_eq_true_of_mem_docsAt s _ _ c1 hmem
        rw [sysStep_false, stepReserve_checked_taken c2 s hu]
        exact Or.inr (Or.inl ⟨h1, Or.inr rfl, h3⟩)
      · subst h2
        rw [sysStep_false, stepReserve_lost]
        exact Or.inr (Or.inl ⟨h1, Or.inr rfl, h3⟩)
    · rw [show p2 = PState.won c2.id from h1, sysStep_false, stepReserve_won]
      exact Or.inr (Or.inr ⟨rfl, h2, h3⟩)

/-- The race invariant holds after any interleaving. -/
theorem inv_runSched (c1 c2 : Cita) (sched : List Bool) (st : SysState)
    (hf : c2.fecha = c1.fecha) (hh : c2.horario = c1.horario)
    (he1 : c1.estado = Estado.confirmada) (he2 : c2.estado = Estado.confirmada)
    (hinv : Inv c1 c2 st) : Inv c1 c2 (runSched c1 c2 sched st) := by
  induction sched generalizing st with
  | nil => exact hinv
  | cons w ws ih =>
    exact ih (sysStep c1 c2 st w) (inv_sysStep c1 c2 st w hf hh he1 he2 hinv)

/-- C2: two reservation requests for the same free (fecha, horario) —
each a `findOne` check followed by a `save` guarded by the storage-level
unique index — end, under every interleaving of their storage steps in
which both requests have finished, with exactly one 201 winner and one
409 loser; the store holds exactly the winner's document, never an
overwrite by the loser. -/
theorem c2_carrera_exactamente_un_ganador (c1 c2 : Cita) (s0 : Store)
    (sched : List Bool)
    (hf : c2.fecha = c1.fecha) (hh : c2.horario = c1.horario)
    (he1 : c1.estado = Estado.confirmada) (he2 : c2.estado = Estado.confirmada)
    (hfree : docsAt s0 c1.fecha c1.horario = [])
    (hfin1 : finished (runSched c1 c2 sched ⟨PState.start, PState.start, s0⟩).p1 = true)
    (hfin2 : finished (runSched c1 c2 sched ⟨PState.start, PState.start, s0⟩).p2 = true) :
    ((runSched c1 c2 sched ⟨PState.start, PState.start, s0⟩).p1 = PState.won c1.id ∧
      (runSched c1 c2 sched ⟨PState.start, PState.start, s0⟩).p2 = PState.lost ∧
      docsAt (runSched c1 c2 sched ⟨PState.start, PState.start, s0⟩).store
        c1.fecha c1.horario = [c1]) ∨
    ((runSched c1 c2 sched ⟨PState.start, PState.start, s0⟩).p1 = PState.lost ∧
      (runSched c1 c2 sched ⟨PState.start, PState.start, s0⟩).p2 = PState.won c2.id ∧
      docsAt (runSched c1 c2 sched ⟨PState.start, PState.start, s0⟩).store
        c1.fecha c1.horario = [c2]) := by
  have hinv := inv_runSched c1 c2 sched ⟨PState.start, PState.start, s0⟩ hf hh he1 he2
    (Or.inl ⟨Or.inl rfl, Or.inl rfl, hfree⟩)
  rcases hinv with ⟨h1, h2, h3⟩ | ⟨h1, h2, h3⟩ | ⟨h1, h2, h3⟩
  · exfalso
    rcases h1 with h1 | h1 <;> rw [h1] at hfin1 <;> simp [finished] at hfin1
  · left
    refine ⟨h1, ?_, h3⟩
    rcases h2 with (h2 | h2) | h2
    · rw [h2] at hfin2
      simp [finished] at hfin2
    · rw [h2] at hfin2
      simp [finished] at hfin2
    · exact h2
  · right
    refine ⟨?_, h1, h3⟩
    rcases h2 with (h2 | h2) | h2
    · rw [h2] at hfin1
      simp [finished] at hfin1
    · rw [h2] at hfin1
      simp [finished] at hfin1
    · exact h2

/-- Witness for C2: the interleaving check1, check2, save1, save2 on an
empty store ends with request 1 winning and request 2 losing to the
duplicate-key error. -/
theorem c2_witness :
    ((runSched cW1 cW2 [true, false, true, false]
        ⟨PState.start, PState.start, emptyStore⟩).p1 = PState.won cW1.id ∧
      (runSched cW1 cW2 [true, false, true, false]
        ⟨PState.start, PState.start, emptyStore⟩).p2 = PState.lost ∧
      docsAt (runSched cW1 cW2 [true, false, true, false]
          ⟨PState.start, PState.start, emptyStore⟩).store
        cW1.fecha cW1.horario = [cW1]) ∨
    ((runSched cW1 cW2 [true, false, true, false]
        ⟨PState.start, PState.start, emptyStore⟩).p1 = PState.lost ∧
      (runSched cW1 cW2 [true, false, true, false]
        ⟨PState.start, PState.start, emptyStore⟩).p2 = PState.won cW2.id ∧
      docsAt (runSched cW1 cW2 [true, false, true, false]
          ⟨PState.start, PState.start, emptyStore⟩).store
        cW1.fecha cW1.horario = [cW2]) :=
  c2_carrera_exactamente_un_ganador cW1 cW2 emptyStore [true, false, true, false]
    rfl rfl rfl rfl (by decide) (by decide) (by decide)

/-- Witness for C10: cancelling a completed appointment succeeds and
stores status cancelled. -/
theorem c10_witness :
    (cancelAppointment ⟨[citaEj 3 0 "14:00" Estado.completada], 4⟩ 3).1 =
      CancelResult.cancelled 3 Estado.cancelada ∧
    findById (cancelAppointment ⟨[citaEj 3 0 "14:00" Estado.completada], 4⟩ 3).2 3 =
      some { citaEj 3 0 "14:00" Estado.completada with estado := Estado.cancelada } :=
  c10_cancel_incondicional ⟨[citaEj 3 0 "14:00" Estado.completada], 4⟩ 3
    (citaEj 3 0 "14:00" Estado.completada) (by decide)

end Citas
